import Mathlib

set_option maxRecDepth 100000

/-!
Verification development for the EduGenius study-material service
(`src/app.py`).  The Python code is shallowly embedded: strings are
modelled through their character lists (`String` in this Lean core is a
structure over `List Char`), the three external services (the Gemini LLM,
`json.loads`, and the Wikipedia API) are oracle parameters, and the
Python `(value, error)` return pairs — whose two components are never
simultaneously populated in this code base — are modelled as
`Except String _`.
-/

/-! ### Character-list utilities modelling Python `str` primitives -/

/-- True when the first list is an initial segment of the second.
Building block for Python's substring test and `str.replace`. -/
def headMatches : List Char → List Char → Bool
  | [], _ => true
  | _ :: _, [] => false
  | a :: as, b :: bs => a == b && headMatches as bs

/-- Python's `needle in haystack` substring test. -/
def occursIn (needle : List Char) : List Char → Bool
  | [] => needle.isEmpty
  | c :: cs => headMatches needle (c :: cs) || occursIn needle cs

/-- Worker for `replaceAll`, structurally recursive on a fuel argument
so that the kernel can evaluate it; every step consumes at least one
character and one unit of fuel, so fuel = input length is sufficient. -/
def replaceAllAux (pat rep : List Char) : Nat → List Char → List Char
  | _, [] => []
  | 0, l => l
  | fuel + 1, c :: cs =>
    if pat.isEmpty then c :: replaceAllAux pat rep fuel cs
    else if headMatches pat (c :: cs) then
      rep ++ replaceAllAux pat rep fuel (cs.drop (pat.length - 1))
    else c :: replaceAllAux pat rep fuel cs

/-- Python's `str.replace(pat, rep)`: replace every non-overlapping
occurrence, scanning left to right.  (The source only calls it with
non-empty patterns; the empty-pattern branch just recurses.) -/
def replaceAll (pat rep l : List Char) : List Char :=
  replaceAllAux pat rep l.length l

/-- Drop leading whitespace characters. -/
def dropLeadingWs : List Char → List Char
  | [] => []
  | c :: cs => if c.isWhitespace then dropLeadingWs cs else c :: cs

/-- Python's `str.strip()`: drop whitespace from both ends. -/
def pyStrip (l : List Char) : List Char :=
  dropLeadingWs ((dropLeadingWs l.reverse).reverse)

/-- Python's `str.lower()` (ASCII case mapping suffices here). -/
def pyLower (l : List Char) : List Char := l.map Char.toLower

/-- Worker for `pyWords`: `cur` holds the reversed current word. -/
def wordsAux (cur : List Char) : List Char → List (List Char)
  | [] => if cur.isEmpty then [] else [cur.reverse]
  | c :: cs =>
    if c.isWhitespace then
      if cur.isEmpty then wordsAux [] cs else cur.reverse :: wordsAux [] cs
    else wordsAux (c :: cur) cs

/-- Python's no-argument `str.split()`: whitespace-separated words,
empty pieces dropped. -/
def pyWords (l : List Char) : List (List Char) := wordsAux [] l

/-- Worker for `pyTitle`; the flag records whether the previous
character was alphabetic. -/
def titleAux : Bool → List Char → List Char
  | _, [] => []
  | prevAlpha, c :: cs =>
    (if c.isAlpha then (if prevAlpha then c.toLower else c.toUpper) else c)
      :: titleAux c.isAlpha cs

/-- Python's `str.title()`: capitalise the first letter of every
alphabetic run, lower-case the rest. -/
def pyTitle (s : String) : String := String.mk (titleAux false s.data)

/-! ### `fallback_parse` (src/app.py lines 83-110) -/

/-- The six-field record built by `fallback_parse`. -/
structure ParsedInfo where
  main_topic : String
  subject_domain : String
  specific_focus : String
  learning_intent : String
  complexity_level : String
  keywords : List String
deriving DecidableEq, Repr

/-- The `common_domains` dict of `fallback_parse`, in Python insertion
order. -/
def common_domains : List (String × List String) :=
  [("computer science", ["programming", "algorithm", "data structure", "system", "software"]),
   ("biology", ["cell", "organism", "dna", "protein", "evolution"]),
   ("physics", ["quantum", "energy", "force", "particle", "wave"]),
   ("chemistry", ["molecule", "atom", "reaction", "compound", "element"]),
   ("mathematics", ["equation", "theorem", "calculus", "algebra", "geometry"])]

/-- The domain-identification loop of `fallback_parse`: the first entry
of `common_domains` one of whose keywords occurs in the lower-cased
prompt wins (`break`), title-cased; otherwise `"General"`. -/
def identify_domain (prompt_lower : List Char) : String :=
  match common_domains.find? (fun dk => dk.2.any (fun kw => occursIn kw.data prompt_lower)) with
  | some dk => pyTitle dk.1
  | none => "General"

/-- The `main_topic` expression of `fallback_parse`:
`user_prompt.replace("teach me about", "").replace("learn about", "").strip()`. -/
def strippedTopic (user_prompt : String) : String :=
  String.mk (pyStrip (replaceAll "learn about".data []
    (replaceAll "teach me about".data [] user_prompt.data)))

/-- `fallback_parse` (src/app.py lines 83-110). -/
def fallback_parse (user_prompt : String) : ParsedInfo :=
  let prompt_lower := pyLower user_prompt.data
  { main_topic := strippedTopic user_prompt
    subject_domain := identify_domain prompt_lower
    specific_focus := user_prompt
    learning_intent := "comprehensive understanding"
    complexity_level := "intermediate"
    keywords := ((pyWords prompt_lower).take 5).map String.mk }

/-! ### JSON values, `json.loads` results and Python dict access -/

/-- JSON values, as produced by `json.loads`.  Objects keep their
key/value pairs in insertion order, as Python dicts do. -/
inductive Json where
  | null
  | bool (b : Bool)
  | num (n : Int)
  | str (s : String)
  | arr (items : List Json)
  | obj (kvs : List (String × Json))

/-- Python dict subscription `j[k]`.  On a dict a missing key raises
`KeyError(k)`, whose `str()` is the key wrapped in single quotes; on a
non-dict value subscription with a string key raises a `TypeError`
(message text approximated, no claim constrains it). -/
def dictGet (j : Json) (k : String) : Except String Json :=
  match j with
  | Json.obj kvs =>
    match kvs.find? (fun kv => kv.1 == k) with
    | some kv => Except.ok kv.2
    | none => Except.error ("\x27" ++ k ++ "\x27")
  | _ => Except.error "value is not subscriptable by string key"

/-- The dict literal returned by `fallback_parse`, as a `Json` object
(keys in source order). -/
def ParsedInfo.asJson (p : ParsedInfo) : Json :=
  Json.obj [("main_topic", Json.str p.main_topic),
            ("subject_domain", Json.str p.subject_domain),
            ("specific_focus", Json.str p.specific_focus),
            ("learning_intent", Json.str p.learning_intent),
            ("complexity_level", Json.str p.complexity_level),
            ("keywords", Json.arr (p.keywords.map Json.str))]

/-! ### `parse_learning_request` (src/app.py lines 40-81) -/

def openBrace : Char := Char.ofNat 123

def closeBrace : Char := Char.ofNat 125

/-- `re.search(r'\x7b.*\x7d', text, re.DOTALL)`: with a greedy `.*` that
also crosses newlines, the match (when one exists) runs from the first
opening brace to the last closing brace after it; because the dot also
matches braces, that last closing brace is the last one in the whole
text.  Returns the matched span, or `none` when there is no opening
brace followed by a later closing brace. -/
def extractJsonSpan (l : List Char) : Option (List Char) :=
  match List.findIdx? (fun c => c == openBrace) l,
        List.findIdx? (fun c => c == closeBrace) l.reverse with
  | some i, some r =>
    let j := l.length - 1 - r
    if i < j then some ((l.drop i).take (j - i + 1)) else none
  | _, _ => none

/-- `parse_learning_request` (src/app.py lines 40-81).

The oracle `llm` maps the user prompt to the `response.text` of
`model.generate_content` on the parsing prompt built from it (the
prompt template is a fixed pure wrapper around `user_prompt`, so it is
folded into the oracle); `Except.error e` models the call raising an
exception with `str(e) = e`.  The oracle `jsonLoads` models
`json.loads`, with `Except.error` for a raised `JSONDecodeError`.  The
Python pair `(parsed_info, None)` / `(None, message)` is modelled as
`Except.ok parsed_info` / `Except.error message`. -/
def parse_learning_request (llm : String → Except String String)
    (jsonLoads : String → Except String Json) (user_prompt : String) :
    Except String Json :=
  match llm user_prompt with
  | Except.error e => Except.error ("Error parsing request: " ++ e)
  | Except.ok text =>
    match extractJsonSpan text.data with
    | some grp =>
      match jsonLoads (String.mk grp) with
      | Except.ok parsed_info => Except.ok parsed_info
      | Except.error e => Except.error ("Error parsing request: " ++ e)
    | none => Except.ok (fallback_parse user_prompt).asJson

/-! ### `fetch_wikipedia_context` (src/app.py lines 112-144) -/

/-- A Wikipedia page as observed through `wikipediaapi`: the fields the
code reads.  The wiki oracle returns `none` when `page.exists()` is
false.  Search terms are arbitrary values (`α`), as in Python, where
the terms are whatever objects sit in `parsed_info['keywords']`. -/
structure WikiPage where
  title : String
  summary : String
  fullurl : String
deriving DecidableEq, Repr

/-- The accepted-context record appended by the fetch loop. -/
structure ReferenceContext where
  title : String
  content : String
  url : String
deriving DecidableEq, Repr

/-- The summary-length cap: `if len(summary) > 1500: summary =
summary[:1500] + "..."`. -/
def truncateSummary (summary : String) : String :=
  if 1500 < summary.length then
    String.mk (summary.data.take 1500 ++ ['.', '.', '.'])
  else summary

/-- The record appended for an accepted page. -/
def mkContext (page : WikiPage) : ReferenceContext :=
  { title := page.title, content := truncateSummary page.summary, url := page.fullurl }

/-- The acceptance test `if summary and len(summary.strip()) > 100`. -/
def acceptSummary (summary : String) : Bool :=
  !(summary == "") && decide (100 < (pyStrip summary.data).length)

/-- The `for term in search_terms` loop of `fetch_wikipedia_context`,
with its `if len(contexts) >= 2: break` guard. -/
def collectContexts {α : Type} (wiki : α → Option WikiPage) :
    List α → List ReferenceContext → List ReferenceContext
  | [], contexts => contexts
  | term :: rest, contexts =>
    if 2 ≤ contexts.length then contexts
    else
      match wiki term with
      | some page =>
        if acceptSummary page.summary then
          collectContexts wiki rest (contexts ++ [mkContext page])
        else collectContexts wiki rest contexts
      | none => collectContexts wiki rest contexts

/-- `fetch_wikipedia_context` (src/app.py lines 112-144). -/
def fetch_wikipedia_context {α : Type} (wiki : α → Option WikiPage)
    (keywords : List α) (main_topic : α) : Except String (List ReferenceContext) :=
  let search_terms := main_topic :: keywords.take 3
  let contexts := collectContexts wiki search_terms []
  if contexts = [] then Except.error "No relevant Wikipedia content found"
  else Except.ok contexts

/-! ### `generate_comprehensive_study_material` (src/app.py lines 146-219) -/

mutual

/-- Python `str()` of a JSON value, used by f-string interpolation in
the study prompt (exact only for strings, which is all the code
produces in practice; other cases follow Python's repr conventions). -/
def renderJson : Json → String
  | Json.null => "None"
  | Json.bool b => if b then "True" else "False"
  | Json.num n => toString n
  | Json.str s => "\x27" ++ s ++ "\x27"
  | Json.arr items => "[" ++ renderJsonList items ++ "]"
  | Json.obj kvs => "\x7b" ++ renderJsonKvs kvs ++ "\x7d"

/-- Comma-joined rendering of a JSON array body. -/
def renderJsonList : List Json → String
  | [] => ""
  | [j] => renderJson j
  | j :: rest => renderJson j ++ ", " ++ renderJsonList rest

/-- Comma-joined rendering of a JSON object body. -/
def renderJsonKvs : List (String × Json) → String
  | [] => ""
  | [kv] => "\x27" ++ kv.1 ++ "\x27: " ++ renderJson kv.2
  | kv :: rest => "\x27" ++ kv.1 ++ "\x27: " ++ renderJson kv.2 ++ ", " ++ renderJsonKvs rest

end

/-- `str()` as applied by an f-string: a string interpolates as itself,
other values through their repr-style rendering. -/
def pyStr : Json → String
  | Json.str s => s
  | j => renderJson j

/-- The `wiki_context` accumulation loop: for each context, append
`"\n--- Source i+1: title ---\ncontent\n"`. -/
def wikiContextBlock : Nat → List ReferenceContext → String
  | _, [] => ""
  | i, ctx :: rest =>
    "\n--- Source " ++ toString (i + 1) ++ ": " ++ ctx.title ++ " ---\n"
      ++ ctx.content ++ "\n" ++ wikiContextBlock (i + 1) rest

/-- The `study_prompt` f-string template, as a function of the
interpolated values (in their source order of appearance). -/
def studyPromptTemplate (original_prompt main_topic subject_domain specific_focus
    complexity_level wiki_context : String) : String :=
  "\n            You are an expert educator and curriculum designer. Create comprehensive, well-structured study material based on the user\x27s learning request.\n\n            **Original User Request:** \"" ++ original_prompt ++ "\"\n\n            **Parsed Learning Goals:**\n            - Topic: " ++ main_topic ++ "\n            - Domain: " ++ subject_domain ++ "\n            - Focus: " ++ specific_focus ++ "\n            - Level: " ++ complexity_level ++ "\n\n            **Factual Reference Material:**\n            " ++ wiki_context ++ "\n\n            **Your Task:**\n            Create a comprehensive study guide that is:\n            1. **Structured** - Use clear headings and logical flow\n            2. **Comprehensive** - Cover all important aspects\n            3. **Concise** - Be thorough but not overwhelming\n            4. **Effective** - Focus on key concepts that aid understanding\n            5. **Practical** - Include examples where relevant\n\n            **Required Structure:**\n            \n            # " ++ main_topic ++ " - Complete Study Guide\n            \n            ## 📋 Overview\n            [Brief introduction and why this topic is important]\n            \n            ## 🎯 Learning Objectives\n            [What you\x27ll understand after studying this material]\n            \n            ## 🔑 Key Concepts\n            [Core concepts with clear definitions]\n            \n            ## 📖 Detailed Explanation\n            [In-depth explanation of the topic]\n            \n            ## 💡 Practical Examples\n            [Real-world applications or examples]\n            \n            ## 🔗 Key Relationships\n            [How this topic connects to other concepts]\n            \n            ## ⚡ Quick Reference\n            [Important formulas, commands, or summary points]\n            \n            ## 🧠 Self-Assessment Questions\n            [3-5 questions to test understanding]\n            \n            ## 📚 Further Study\n            [Suggestions for deeper learning]\n\n            Generate content that is pedagogically sound, engaging, and tailored to the " ++ complexity_level ++ " level.\n            Base your content on the provided reference material but expand with educational context as needed.\n            "

/-- Building `study_prompt`: the f-string interpolations subscript
`parsed_info` in order `main_topic`, `subject_domain`,
`specific_focus`, `complexity_level` (later repetitions reuse the same
dict entries); a missing key raises `KeyError` inside the enclosing
`try`. -/
def buildStudyPrompt (parsed_info : Json) (wiki_context original_prompt : String) :
    Except String String := do
  let mt ← dictGet parsed_info "main_topic"
  let sd ← dictGet parsed_info "subject_domain"
  let sf ← dictGet parsed_info "specific_focus"
  let cl ← dictGet parsed_info "complexity_level"
  pure (studyPromptTemplate original_prompt (pyStr mt) (pyStr sd) (pyStr sf)
    (pyStr cl) wiki_context)

/-- `generate_comprehensive_study_material` (src/app.py lines 146-219).
The `llm` oracle models `model.generate_content(...).text`, with
`Except.error` for a raised exception, which the function's `try`
converts to the `"Error generating study material: ..."` message; an
empty (falsy) response text yields `"Failed to generate study
material"`. -/
def generate_comprehensive_study_material (llm : String → Except String String)
    (parsed_info : Json) (wikipedia_contexts : List ReferenceContext)
    (original_prompt : String) : Except String String :=
  let wiki_context := wikiContextBlock 0 wikipedia_contexts
  match buildStudyPrompt parsed_info wiki_context original_prompt with
  | Except.error e => Except.error ("Error generating study material: " ++ e)
  | Except.ok study_prompt =>
    match llm study_prompt with
    | Except.error e => Except.error ("Error generating study material: " ++ e)
    | Except.ok text =>
      if text = "" then Except.error "Failed to generate study material"
      else Except.ok text

/-! ### The `/generate` handler `generate_study_material`
(src/app.py lines 229-288) -/

/-- The `data` payload of a successful response.  `generated_at` is
`datetime.now().isoformat()`, passed in as the oracle value `now`. -/
structure ResponseData where
  study_material : String
  parsed_info : Json
  sources : List String
  generated_at : String

/-- The JSON response envelope: `{success: true, data: ...}` or
`{success: false, error: ...}`. -/
inductive Envelope where
  | success (data : ResponseData)
  | failure (error : String)

/-- The `/generate` handler (src/app.py lines 229-288).

`raw_prompt` is `data.get('prompt', '')`.  The two key subscriptions
`parsed_info['keywords']` and `parsed_info['main_topic']` sit outside
any inner `try`, so their exceptions reach the top-level handler and
become `"Server error: " ++ str(e)`.  A non-list `keywords` value makes
`[main_topic] + keywords[:3]` raise a `TypeError` inside
`fetch_wikipedia_context`'s own `try`, producing its
`"Error fetching Wikipedia data: ..."` message (suffix approximated;
no claim constrains it). -/
def generate_study_material (llmParse llmStudy : String → Except String String)
    (jsonLoads : String → Except String Json) (wiki : Json → Option WikiPage)
    (now : String) (raw_prompt : String) : Envelope :=
  let user_prompt := String.mk (pyStrip raw_prompt.data)
  if user_prompt = "" then
    Envelope.failure "Please provide a learning prompt"
  else
    match parse_learning_request llmParse jsonLoads user_prompt with
    | Except.error parse_error => Envelope.failure parse_error
    | Except.ok parsed_info =>
      match dictGet parsed_info "keywords" with
      | Except.error e => Envelope.failure ("Server error: " ++ e)
      | Except.ok keywordsJson =>
        match dictGet parsed_info "main_topic" with
        | Except.error e => Envelope.failure ("Server error: " ++ e)
        | Except.ok mainTopicJson =>
          match keywordsJson with
          | Json.arr keywordItems =>
            match fetch_wikipedia_context wiki keywordItems mainTopicJson with
            | Except.error wiki_error => Envelope.failure wiki_error
            | Except.ok wikipedia_contexts =>
              match generate_comprehensive_study_material llmStudy parsed_info
                  wikipedia_contexts user_prompt with
              | Except.error content_error => Envelope.failure content_error
              | Except.ok study_material =>
                Envelope.success
                  { study_material := study_material
                    parsed_info := parsed_info
                    sources := wikipedia_contexts.map ReferenceContext.title
                    generated_at := now }
          | _ => Envelope.failure "Error fetching Wikipedia data: unsupported keywords value"

/-! ### Helper lemmas -/

/-- The classified domain always lies in the fixed titled set. -/
theorem identify_domain_mem (text : List Char) :
    identify_domain text ∈
      (["Computer Science", "Biology", "Physics", "Chemistry", "Mathematics",
        "General"] : List String) := by
  unfold identify_domain
  cases hf : common_domains.find? (fun dk => dk.2.any fun kw => occursIn kw.data text) with
  | none => simp
  | some dk =>
    have hmem := List.mem_of_find?_eq_some hf
    simp only [common_domains, List.mem_cons, List.not_mem_nil, or_false] at hmem
    rcases hmem with rfl | rfl | rfl | rfl | rfl <;> decide

/-- A list of whitespace characters strips to nothing. -/
theorem dropLeadingWs_all_ws (l : List Char) (h : ∀ c ∈ l, c.isWhitespace) :
    dropLeadingWs l = [] := by
  induction l with
  | nil => rfl
  | cons c cs ih =>
    simp only [dropLeadingWs, if_pos (h c (List.mem_cons_self c cs))]
    exact ih fun d hd => h d (List.mem_cons_of_mem c hd)

/-- `strip()` of an all-whitespace string is empty. -/
theorem pyStrip_all_ws (l : List Char) (h : ∀ c ∈ l, c.isWhitespace) :
    pyStrip l = [] := by
  unfold pyStrip
  rw [dropLeadingWs_all_ws l.reverse fun c hc => h c (List.mem_reverse.mp hc)]
  rfl

/-- Once two contexts have been collected, the loop body only breaks:
the remaining search terms are never consulted. -/
theorem collectContexts_stop {α : Type} (wiki : α → Option WikiPage) (terms : List α)
    (acc : List ReferenceContext) (h : 2 ≤ acc.length) :
    collectContexts wiki terms acc = acc := by
  cases terms with
  | nil => rfl
  | cons t rest => simp [collectContexts, if_pos h]

/-- The collection loop never grows the context list beyond two. -/
theorem collectContexts_le_two {α : Type} (wiki : α → Option WikiPage) :
    ∀ (terms : List α) (acc : List ReferenceContext), acc.length ≤ 2 →
      (collectContexts wiki terms acc).length ≤ 2 := by
  intro terms
  induction terms with
  | nil => intro acc h; simpa [collectContexts] using h
  | cons t rest ih =>
    intro acc h
    by_cases h2 : 2 ≤ acc.length
    · simpa [collectContexts, if_pos h2] using h
    · simp only [collectContexts, if_neg h2]
      cases hw : wiki t with
      | none => exact ih acc h
      | some page =>
        by_cases ha : acceptSummary page.summary
        · simp only [if_pos ha]
          exact ih (acc ++ [mkContext page]) (by simp; omega)
        · simp only [if_neg ha]
          exact ih acc h

/-- Every context produced by the loop is either inherited from the
accumulator or built by `mkContext` from some page. -/
theorem collectContexts_mem {α : Type} (wiki : α → Option WikiPage) :
    ∀ (terms : List α) (acc : List ReferenceContext) (ctx : ReferenceContext),
      ctx ∈ collectContexts wiki terms acc →
      ctx ∈ acc ∨ ∃ page : WikiPage, ctx = mkContext page := by
  intro terms
  induction terms with
  | nil =>
    intro acc ctx h
    exact Or.inl (by simpa [collectContexts] using h)
  | cons t rest ih =>
    intro acc ctx
    by_cases h2 : 2 ≤ acc.length
    · intro h
      exact Or.inl (by simpa [collectContexts, if_pos h2] using h)
    · simp only [collectContexts, if_neg h2]
      cases hw : wiki t with
      | none => intro h; exact ih acc ctx h
      | some page =>
        intro h
        replace h : ctx ∈ (if acceptSummary page.summary then
            collectContexts wiki rest (acc ++ [mkContext page])
          else collectContexts wiki rest acc) := h
        by_cases ha : acceptSummary page.summary
        · rw [if_pos ha] at h
          rcases ih (acc ++ [mkContext page]) ctx h with hmem | hpage
          · rcases List.mem_append.mp hmem with hacc | hnew
            · exact Or.inl hacc
            · exact Or.inr ⟨page, by simpa using hnew⟩
          · exact Or.inr hpage
        · rw [if_neg ha] at h
          exact ih acc ctx h

/-- A successful fetch returns exactly the loop's output, and that
output is non-empty. -/
theorem fetch_ok_inv {α : Type} (wiki : α → Option WikiPage) (keywords : List α)
    (main_topic : α) (l : List ReferenceContext)
    (h : fetch_wikipedia_context wiki keywords main_topic = Except.ok l) :
    l = collectContexts wiki (main_topic :: keywords.take 3) [] ∧ l ≠ [] := by
  simp only [fetch_wikipedia_context] at h
  split at h
  · cases h
  · next hc =>
    cases h
    exact ⟨rfl, hc⟩

/-- A truncated context body never exceeds 1503 characters. -/
theorem mkContext_content_le (page : WikiPage) :
    (mkContext page).content.length ≤ 1503 := by
  unfold mkContext truncateSummary
  split
  · next hlong =>
    simp [List.length_take]
  · next hshort =>
    show page.summary.length ≤ 1503
    omega

/-! ### Claim C1 -/

/-- Counterexample to claim C1 as stated: the input "teach me about" is
a non-empty text, yet the fallback's `main_topic` — the input with the
filler phrases removed and trimmed — is the empty string. -/
theorem fallback_nonempty_topic_cex :
    ("teach me about" : String) ≠ "" ∧
    (fallback_parse "teach me about").main_topic = "" := by
  exact ⟨by decide, by rfl⟩

/-- Claim C1 (amended): for every input text, the Domain Classifier
fallback returns a ParsedInfo whose `subject_domain` is one of the five
fixed (title-cased) domain names or "General" and whose `keywords` list
has length at most 5; `main_topic` is non-empty whenever the input with
the filler phrases removed and trimmed is non-empty (it is exactly that
stripped text, so it is empty for inputs such as "teach me about"). -/
theorem fallback_parse_wellformed (s : String) :
    (fallback_parse s).subject_domain ∈
      (["Computer Science", "Biology", "Physics", "Chemistry", "Mathematics",
        "General"] : List String) ∧
    (fallback_parse s).keywords.length ≤ 5 ∧
    (strippedTopic s ≠ "" → (fallback_parse s).main_topic ≠ "") := by
  refine ⟨identify_domain_mem (pyLower s.data), ?_, fun h => h⟩
  show (((pyWords (pyLower s.data)).take 5).map String.mk).length ≤ 5
  rw [List.length_map, List.length_take]
  exact Nat.min_le_left _ _

/-- Witness for `fallback_parse_wellformed` at the input
"learn about dna". -/
theorem fallback_parse_wellformed_witness :
    strippedTopic "learn about dna" ≠ "" ∧
    (fallback_parse "learn about dna").main_topic ≠ "" :=
  ⟨by decide, (fallback_parse_wellformed "learn about dna").2.2 (by decide)⟩

/-! ### Claim C8 -/

/-- The spec's description of the domain scan, written as an explicit
decision chain: the fixed mapping is consulted in insertion order
(computer science, biology, physics, chemistry, mathematics) and the
first domain one of whose trigger keywords occurs in the text wins;
otherwise "General". -/
def classifyDomainSpec (text : List Char) : String :=
  if (["programming", "algorithm", "data structure", "system", "software"] : List String).any
      (fun kw => occursIn kw.data text) then "Computer Science"
  else if (["cell", "organism", "dna", "protein", "evolution"] : List String).any
      (fun kw => occursIn kw.data text) then "Biology"
  else if (["quantum", "energy", "force", "particle", "wave"] : List String).any
      (fun kw => occursIn kw.data text) then "Physics"
  else if (["molecule", "atom", "reaction", "compound", "element"] : List String).any
      (fun kw => occursIn kw.data text) then "Chemistry"
  else if (["equation", "theorem", "calculus", "algebra", "geometry"] : List String).any
      (fun kw => occursIn kw.data text) then "Mathematics"
  else "General"

/-- First-hit step for the domain scan, positive case (stated with the
scan predicate explicit so rewriting is first-order). -/
theorem domains_find_pos (text : List Char) (d : String) (kws : List String)
    (rest : List (String × List String))
    (h : kws.any (fun kw => occursIn kw.data text) = true) :
    List.find? (fun dk : String × List String => dk.2.any fun kw => occursIn kw.data text)
      ((d, kws) :: rest) = some (d, kws) :=
  List.find?_cons_of_pos _ h

/-- First-hit step for the domain scan, negative case. -/
theorem domains_find_neg (text : List Char) (d : String) (kws : List String)
    (rest : List (String × List String))
    (h : ¬ kws.any (fun kw => occursIn kw.data text) = true) :
    List.find? (fun dk : String × List String => dk.2.any fun kw => occursIn kw.data text)
      ((d, kws) :: rest)
      = List.find? (fun dk : String × List String => dk.2.any fun kw => occursIn kw.data text)
          rest :=
  List.find?_cons_of_neg _ h

/-- Claim C8: for every input text, the fallback's `subject_domain` is
computed by scanning the fixed mapping in insertion order over the
lower-cased text, first hit winning, with "General" as the default —
i.e. it coincides with the spec's decision chain. -/
theorem fallback_domain_scan_order (s : String) :
    (fallback_parse s).subject_domain = classifyDomainSpec (pyLower s.data) := by
  show identify_domain (pyLower s.data) = classifyDomainSpec (pyLower s.data)
  generalize pyLower s.data = text
  unfold identify_domain classifyDomainSpec common_domains
  by_cases h1 : (["programming", "algorithm", "data structure", "system",
      "software"] : List String).any (fun kw => occursIn kw.data text) = true
  · rw [domains_find_pos _ _ _ _ h1, if_pos h1]; decide
  · rw [domains_find_neg _ _ _ _ h1, if_neg h1]
    by_cases h2 : (["cell", "organism", "dna", "protein",
        "evolution"] : List String).any (fun kw => occursIn kw.data text) = true
    · rw [domains_find_pos _ _ _ _ h2, if_pos h2]; decide
    · rw [domains_find_neg _ _ _ _ h2, if_neg h2]
      by_cases h3 : (["quantum", "energy", "force", "particle",
          "wave"] : List String).any (fun kw => occursIn kw.data text) = true
      · rw [domains_find_pos _ _ _ _ h3, if_pos h3]; decide
      · rw [domains_find_neg _ _ _ _ h3, if_neg h3]
        by_cases h4 : (["molecule", "atom", "reaction", "compound",
            "element"] : List String).any (fun kw => occursIn kw.data text) = true
        · rw [domains_find_pos _ _ _ _ h4, if_pos h4]; decide
        · rw [domains_find_neg _ _ _ _ h4, if_neg h4]
          by_cases h5 : (["equation", "theorem", "calculus", "algebra",
              "geometry"] : List String).any (fun kw => occursIn kw.data text) = true
          · rw [domains_find_pos _ _ _ _ h5, if_pos h5]; decide
          · rw [domains_find_neg _ _ _ _ h5, if_neg h5, List.find?_nil]

/-! ### Claim C3 -/

/-- Claim C3: whenever the LLM call succeeds but its text contains no
substring matching the brace regex (`extractJsonSpan` is the embedding
of `re.search(r'\x7b.*\x7d', ..., re.DOTALL)`), `parse_learning_request`
returns the Domain Classifier fallback's record with no error — i.e.
the fallback path is reported as success. -/
theorem parse_no_json_falls_back (llm : String → Except String String)
    (jsonLoads : String → Except String Json) (user_prompt text : String)
    (hllm : llm user_prompt = Except.ok text)
    (hspan : extractJsonSpan text.data = none) :
    parse_learning_request llm jsonLoads user_prompt =
      Except.ok (fallback_parse user_prompt).asJson := by
  simp [parse_learning_request, hllm, hspan]

/-- An LLM oracle whose response text contains no braces. -/
def llmNoJson : String → Except String String :=
  fun _ => Except.ok "I cannot answer in JSON."

/-- A `json.loads` oracle that always raises (never reached in the
scenarios it is used for). -/
def jlNever : String → Except String Json :=
  fun _ => Except.error "Expecting value: line 1 column 1 (char 0)"

/-- Witness for `parse_no_json_falls_back` at a concrete prompt. -/
theorem parse_no_json_falls_back_witness :
    parse_learning_request llmNoJson jlNever "learn about cells" =
      Except.ok (fallback_parse "learn about cells").asJson :=
  parse_no_json_falls_back llmNoJson jlNever "learn about cells"
    "I cannot answer in JSON." rfl rfl

/-! ### Claim C4 -/

/-- Claim C4: when the underlying LLM call raises, the parser returns
no ParsedInfo — only the parse-error message built from the exception
text.  The result is this error for every `jsonLoads` oracle and does
not involve `fallback_parse`: the fallback is not consulted on this
path. -/
theorem parse_api_failure_aborts (llm : String → Except String String)
    (jsonLoads : String → Except String Json) (user_prompt e : String)
    (hllm : llm user_prompt = Except.error e) :
    parse_learning_request llm jsonLoads user_prompt =
      Except.error ("Error parsing request: " ++ e) := by
  simp [parse_learning_request, hllm]

/-- An LLM oracle that always raises. -/
def llmBoom : String → Except String String := fun _ => Except.error "boom"

/-- Witness for `parse_api_failure_aborts` at a concrete prompt. -/
theorem parse_api_failure_aborts_witness :
    parse_learning_request llmBoom jlNever "teach me about dna" =
      Except.error "Error parsing request: boom" :=
  parse_api_failure_aborts llmBoom jlNever "teach me about dna" "boom" rfl

/-! ### Claim C5 -/

/-- Claim C5: a successful fetch returns at most two contexts, and the
collection loop returns its accumulator untouched — consulting neither
the wiki nor any remaining search term — as soon as two contexts have
been accepted. -/
theorem fetch_at_most_two {α : Type} (wiki : α → Option WikiPage) (keywords : List α)
    (main_topic : α) (l : List ReferenceContext)
    (h : fetch_wikipedia_context wiki keywords main_topic = Except.ok l) :
    l.length ≤ 2 ∧ ∀ (terms : List α) (acc : List ReferenceContext),
      2 ≤ acc.length → collectContexts wiki terms acc = acc := by
  refine ⟨?_, fun terms acc hacc => collectContexts_stop wiki terms acc hacc⟩
  rcases fetch_ok_inv wiki keywords main_topic l h with ⟨rfl, _⟩
  exact collectContexts_le_two wiki _ [] (by simp)

/-- A page with a fixed 150-character summary for any title. -/
def pageFor (t : String) : WikiPage :=
  { title := t, summary := String.mk (List.replicate 150 'a'), fullurl := t }

/-- A wiki oracle on which every term resolves to a valid page. -/
def wikiAll : String → Option WikiPage := fun t => some (pageFor t)

/-- Witness for `fetch_at_most_two`: four valid search terms, yet only
two contexts are returned. -/
theorem fetch_at_most_two_witness :
    ([mkContext (pageFor "A"), mkContext (pageFor "B")] : List ReferenceContext).length ≤ 2 :=
  (fetch_at_most_two wikiAll ["B", "C", "D"] "A"
    [mkContext (pageFor "A"), mkContext (pageFor "B")] rfl).1

/-! ### Claim C2 -/

/-- A page whose summary has 1501 characters. -/
def longPage : WikiPage :=
  { title := "T", summary := String.mk (List.replicate 1501 'a'), fullurl := "u" }

/-- A wiki oracle carrying only `longPage` under the title "T". -/
def wikiLong : String → Option WikiPage :=
  fun term => if term = "T" then some longPage else none

/-- Counterexample to claim C2 as stated: a 1501-character summary is
accepted, and the stored content is the 1500-character truncation plus
the three-character marker — 1503 characters, exceeding 1500. -/
theorem fetch_truncation_cex :
    fetch_wikipedia_context wikiLong ([] : List String) "T" =
      Except.ok [mkContext longPage] ∧
    1500 < (mkContext longPage).content.length := by
  exact ⟨rfl, by decide⟩

/-- Claim C2 (amended): every context accepted by the Reference Fetcher
has content of at most 1503 characters; a summary longer than 1500
characters is stored as its first 1500 characters followed by the
three-character marker "...", 1503 characters in total. -/
theorem fetch_content_bounded {α : Type} (wiki : α → Option WikiPage)
    (keywords : List α) (main_topic : α) (l : List ReferenceContext)
    (ctx : ReferenceContext)
    (h : fetch_wikipedia_context wiki keywords main_topic = Except.ok l)
    (hm : ctx ∈ l) :
    ctx.content.length ≤ 1503 ∧
    ∀ page : WikiPage, 1500 < page.summary.length →
      (mkContext page).content = String.mk (page.summary.data.take 1500 ++ ['.', '.', '.']) ∧
      (mkContext page).content.length = 1503 := by
  constructor
  · rcases fetch_ok_inv wiki keywords main_topic l h with ⟨rfl, _⟩
    rcases collectContexts_mem wiki _ [] ctx hm with hacc | ⟨page, rfl⟩
    · cases hacc
    · exact mkContext_content_le page
  · intro page hlong
    constructor
    · simp [mkContext, truncateSummary, if_pos hlong]
    · show (truncateSummary page.summary).length = 1503
      rw [truncateSummary, if_pos hlong]
      simp [List.length_take]
      omega

/-- Witness for `fetch_content_bounded` on the concrete long-summary
fetch. -/
theorem fetch_content_bounded_witness :
    (mkContext longPage).content.length ≤ 1503 :=
  (fetch_content_bounded wikiLong ([] : List String) "T" [mkContext longPage]
    (mkContext longPage) rfl (List.mem_singleton.mpr rfl)).1

/-! ### Claim C7 -/

/-- Claim C7: a prompt that is empty or consists only of whitespace is
rejected with the fixed validation error before the parsing stage; the
result is the same for every LLM, `json.loads` and wiki oracle, i.e. no
external call can influence (or be observed by) this path. -/
theorem empty_prompt_rejected (llmParse llmStudy : String → Except String String)
    (jsonLoads : String → Except String Json) (wiki : Json → Option WikiPage)
    (now raw_prompt : String) (h : ∀ c ∈ raw_prompt.data, c.isWhitespace) :
    generate_study_material llmParse llmStudy jsonLoads wiki now raw_prompt =
      Envelope.failure "Please provide a learning prompt" := by
  have hs : String.mk (pyStrip raw_prompt.data) = "" := by
    rw [pyStrip_all_ws raw_prompt.data h]
  simp [generate_study_material, hs]

/-- A wiki oracle with no pages at all. -/
def wikiNone : Json → Option WikiPage := fun _ => none

/-- Witness for `empty_prompt_rejected` on a three-space prompt. -/
theorem empty_prompt_rejected_witness :
    generate_study_material llmNoJson llmNoJson jlNever wikiNone "2024-01-01T00:00:00" "   " =
      Envelope.failure "Please provide a learning prompt" :=
  empty_prompt_rejected llmNoJson llmNoJson jlNever wikiNone "2024-01-01T00:00:00" "   "
    (by decide)

/-! ### Claim C6 -/

/-- Claim C6: when the collection loop accepts no context at all, the
Reference Fetcher returns the "No relevant Wikipedia content found"
error, and the Request Handler surfaces exactly that error as a
failure envelope; the conclusion holds for every `llmStudy` oracle, so
the Document Synthesizer is never invoked on this path. -/
theorem fetch_empty_aborts (llmParse llmStudy : String → Except String String)
    (jsonLoads : String → Except String Json) (wiki : Json → Option WikiPage)
    (now raw_prompt : String) (parsed_info mainTopicJson : Json)
    (keywordItems : List Json)
    (hne : String.mk (pyStrip raw_prompt.data) ≠ "")
    (hparse : parse_learning_request llmParse jsonLoads
      (String.mk (pyStrip raw_prompt.data)) = Except.ok parsed_info)
    (hkw : dictGet parsed_info "keywords" = Except.ok (Json.arr keywordItems))
    (hmt : dictGet parsed_info "main_topic" = Except.ok mainTopicJson)
    (hzero : collectContexts wiki (mainTopicJson :: keywordItems.take 3) [] = []) :
    fetch_wikipedia_context wiki keywordItems mainTopicJson =
      Except.error "No relevant Wikipedia content found" ∧
    generate_study_material llmParse llmStudy jsonLoads wiki now raw_prompt =
      Envelope.failure "No relevant Wikipedia content found" := by
  have hfetch : fetch_wikipedia_context wiki keywordItems mainTopicJson =
      Except.error "No relevant Wikipedia content found" := by
    simp [fetch_wikipedia_context, hzero]
  refine ⟨hfetch, ?_⟩
  simp only [generate_study_material, if_neg hne, hparse, hkw, hmt, hfetch]

/-- Witness for `fetch_empty_aborts`: the fallback parse of
"learn about cells" feeds search terms into an empty wiki; the whole
request fails with the fetch error. -/
theorem fetch_empty_aborts_witness :
    fetch_wikipedia_context wikiNone
      [Json.str "learn", Json.str "about", Json.str "cells"] (Json.str "cells") =
      Except.error "No relevant Wikipedia content found" ∧
    generate_study_material llmNoJson llmNoJson jlNever wikiNone
      "2024-01-01T00:00:00" "learn about cells" =
      Envelope.failure "No relevant Wikipedia content found" :=
  fetch_empty_aborts llmNoJson llmNoJson jlNever wikiNone "2024-01-01T00:00:00"
    "learn about cells" (fallback_parse "learn about cells").asJson (Json.str "cells")
    [Json.str "learn", Json.str "about", Json.str "cells"]
    (by decide) rfl rfl rfl rfl

/-! ### Claim C9 -/

/-- A well-formed JSON response that lacks every required field. -/
def c9text : String := "\x7b\"foo\": 1\x7d"

/-- An LLM oracle returning the field-less JSON object. -/
def llmC9 : String → Except String String := fun _ => Except.ok c9text

/-- A `json.loads` oracle consistent with Python on `c9text`. -/
def jlC9 : String → Except String Json :=
  fun s => if s = c9text then Except.ok (Json.obj [("foo", Json.num 1)])
    else Except.error "Expecting value: line 1 column 1 (char 0)"

/-- Claim C9: the parser performs no shape validation — on an LLM
response that is a parseable JSON object without the required fields it
reports success, and the handler then dies on the unguarded
`parsed_info['keywords']` subscription, surfacing the top-level generic
"Server error: 'keywords'" rather than a parse-stage error. -/
theorem parser_shape_unvalidated :
    parse_learning_request llmC9 jlC9 "learn about x" =
      Except.ok (Json.obj [("foo", Json.num 1)]) ∧
    generate_study_material llmC9 llmC9 jlC9 wikiNone "2024-01-01T00:00:00"
      "learn about x" = Envelope.failure "Server error: \x27keywords\x27" := by
  exact ⟨rfl, rfl⟩

/-! ### Claim C10 -/

/-- Claim C10: whenever the handler answers `success`, the `sources`
list has between 1 and 2 entries and is exactly the title list of the
contexts returned by the Reference Fetcher, in collection order. -/
theorem handler_success_sources (llmParse llmStudy : String → Except String String)
    (jsonLoads : String → Except String Json) (wiki : Json → Option WikiPage)
    (now raw_prompt : String) (d : ResponseData)
    (h : generate_study_material llmParse llmStudy jsonLoads wiki now raw_prompt =
      Envelope.success d) :
    (1 ≤ d.sources.length ∧ d.sources.length ≤ 2) ∧
    ∃ (parsed_info mainTopicJson : Json) (keywordItems : List Json)
      (l : List ReferenceContext),
      dictGet parsed_info "keywords" = Except.ok (Json.arr keywordItems) ∧
      dictGet parsed_info "main_topic" = Except.ok mainTopicJson ∧
      fetch_wikipedia_context wiki keywordItems mainTopicJson = Except.ok l ∧
      d.sources = l.map ReferenceContext.title ∧ d.parsed_info = parsed_info := by
  simp only [generate_study_material] at h
  split at h
  · exact Envelope.noConfusion h
  · split at h
    · exact Envelope.noConfusion h
    · rename_i parsed_info hparse
      split at h
      · exact Envelope.noConfusion h
      · rename_i keywordsJson hkw
        split at h
        · exact Envelope.noConfusion h
        · rename_i mainTopicJson hmt
          split at h
          · rename_i keywordItems
            split at h
            · exact Envelope.noConfusion h
            · rename_i wikipedia_contexts hfetch
              split at h
              · exact Envelope.noConfusion h
              · rename_i study_material hsynth
                injection h with hd
                subst hd
                rcases fetch_ok_inv wiki keywordItems mainTopicJson
                  wikipedia_contexts hfetch with ⟨hleq, hne⟩
                refine ⟨⟨?_, ?_⟩,
                  parsed_info, mainTopicJson, keywordItems, wikipedia_contexts,
                  hkw, hmt, hfetch, rfl, rfl⟩
                · show 1 ≤ (wikipedia_contexts.map ReferenceContext.title).length
                  rw [List.length_map]
                  exact Nat.succ_le_of_lt (List.length_pos.mpr hne)
                · show (wikipedia_contexts.map ReferenceContext.title).length ≤ 2
                  rw [List.length_map, hleq]
                  exact collectContexts_le_two wiki _ [] (by simp)
          · exact Envelope.noConfusion h

/-- A wiki oracle resolving every string-valued term to a valid page. -/
def wikiJson : Json → Option WikiPage :=
  fun j => match j with
  | Json.str s => some (pageFor s)
  | _ => none

/-- An LLM oracle whose generation always yields a non-empty document. -/
def llmStudyOk : String → Except String String := fun _ => Except.ok "STUDY GUIDE"

/-- The success payload reached from the prompt "learn about dna" with
the concrete oracles. -/
def c10data : ResponseData :=
  { study_material := "STUDY GUIDE"
    parsed_info := (fallback_parse "learn about dna").asJson
    sources := ["dna", "learn"]
    generated_at := "2024-01-01T00:00:00" }

/-- Witness for `handler_success_sources` on a concrete end-to-end
success run. -/
theorem handler_success_sources_witness :
    1 ≤ c10data.sources.length ∧ c10data.sources.length ≤ 2 :=
  ⟨(handler_success_sources llmNoJson llmStudyOk jlNever wikiJson
      "2024-01-01T00:00:00" "learn about dna" c10data rfl).1.1,
   (handler_success_sources llmNoJson llmStudyOk jlNever wikiJson
      "2024-01-01T00:00:00" "learn about dna" c10data rfl).1.2⟩
